import Mathlib

/-!
Verification of the windshield-sizing cascade in `src/app.py`.

The computational core of the repository is three OpenMDAO explicit
components chained in a fixed dependency graph (`AirplaneCascade`),
a single-point driver `run_model`, and a sweep driver
`run_parametric_sweep`.  Python floats are modelled as exact rationals
(`ℚ`); the OpenMDAO run is modelled as a state machine over the
problem's variable store, with the transfers and component `compute`
calls executed in the order OpenMDAO's run-once solver uses (the order
the subsystems were added: thermal, cooling, perf).  Python's
`ZeroDivisionError` on division by zero is modelled with `Except`.
-/

/-- The variable store of an OpenMDAO problem built on `AirplaneCascade`
(`src/app.py` lines 48-57).  `windshield_size` is promoted and shared by
`thermal` and `perf`; `fuel_burn` is promoted from `perf`; the inputs
`cooling.heat_load` and `perf.system_weight` are separate slots filled
by the declared connections.  All variables are declared with `val=1.0`. -/
structure ProbState where
  windshield_size : ℚ
  thermal_heat_load : ℚ
  cooling_heat_load : ℚ
  cooling_system_weight : ℚ
  perf_system_weight : ℚ
  fuel_burn : ℚ
deriving DecidableEq, Repr

/-- `ThermalComponent.compute` (`src/app.py` line 22):
`outputs['heat_load'] = 2.5 * inputs['windshield_size'] + 10`. -/
def thermalCompute (windshield_size : ℚ) : ℚ :=
  2.5 * windshield_size + 10

/-- `CoolingSystemComponent.compute` (`src/app.py` line 32):
`outputs['system_weight'] = 0.5 * inputs['heat_load'] + 50`. -/
def coolingCompute (heat_load : ℚ) : ℚ :=
  0.5 * heat_load + 50

/-- `FuelComponent.compute` (`src/app.py` lines 41-45):
`weight_penalty = 0.8 * system_weight; drag_penalty = 1.2 * windshield_size;
fuel_burn = weight_penalty + drag_penalty`. -/
def fuelCompute (system_weight windshield_size : ℚ) : ℚ :=
  let weight_penalty := 0.8 * system_weight
  let drag_penalty := 1.2 * windshield_size
  weight_penalty + drag_penalty

/-- Run `thermal`: its promoted input `windshield_size` is read from the
store, its output `thermal.heat_load` is written. -/
def thermalStep (s : ProbState) : ProbState :=
  { s with thermal_heat_load := thermalCompute s.windshield_size }

/-- Transfer along the connection `thermal.heat_load -> cooling.heat_load`. -/
def coolingTransfer (s : ProbState) : ProbState :=
  { s with cooling_heat_load := s.thermal_heat_load }

/-- Run `cooling`: reads its input `cooling.heat_load`, writes its output
`cooling.system_weight`. -/
def coolingStep (s : ProbState) : ProbState :=
  { s with cooling_system_weight := coolingCompute s.cooling_heat_load }

/-- Transfer along the connection `cooling.system_weight -> perf.system_weight`. -/
def perfTransfer (s : ProbState) : ProbState :=
  { s with perf_system_weight := s.cooling_system_weight }

/-- Run `perf`: reads `perf.system_weight` and the promoted
`windshield_size`, writes the promoted output `fuel_burn`. -/
def perfStep (s : ProbState) : ProbState :=
  { s with fuel_burn := fuelCompute s.perf_system_weight s.windshield_size }

/-- One pass of OpenMDAO's run-once solver over the group: subsystems in
the order added (thermal, cooling, perf), each preceded by the transfer
of its connected inputs. -/
def runOnce (s : ProbState) : ProbState :=
  perfStep (perfTransfer (coolingStep (coolingTransfer (thermalStep s))))

/-- The store right after `prob.setup()`: every variable at its declared
default `val=1.0`. -/
def initState : ProbState :=
  { windshield_size := 1, thermal_heat_load := 1, cooling_heat_load := 1
    cooling_system_weight := 1, perf_system_weight := 1, fuel_burn := 1 }

/-- `prob.set_val('windshield_size', x)`: writes the promoted input. -/
def set_val (x : ℚ) (s : ProbState) : ProbState :=
  { s with windshield_size := x }

/-- The record returned by `run_model` (`src/app.py` lines 67-72). -/
structure CascadeResult where
  windshield_size : ℚ
  heat_load : ℚ
  system_weight : ℚ
  fuel_burn : ℚ
deriving DecidableEq, Repr

/-- The four `prob.get_val` reads assembling the result dict:
`windshield_size`, `thermal.heat_load`, `cooling.system_weight`,
`fuel_burn`. -/
def getResult (s : ProbState) : CascadeResult :=
  { windshield_size := s.windshield_size
    heat_load := s.thermal_heat_load
    system_weight := s.cooling_system_weight
    fuel_burn := s.fuel_burn }

/-- `run_model` (`src/app.py` lines 59-72): build a fresh problem,
set the input, run the cascade once, read the four values. -/
def run_model (windshield_size : ℚ) : CascadeResult :=
  getResult (runOnce (set_val windshield_size initState))

/-- Python runtime errors the sweep can raise. -/
inductive PyError where
  | zeroDivisionError
  | invalidRangeError
deriving DecidableEq, Repr

/-- Python division: raises `ZeroDivisionError` on a zero denominator. -/
def pyDiv (a b : ℚ) : Except PyError ℚ :=
  if b = 0 then .error .zeroDivisionError else .ok (a / b)

/-- One term of the list comprehension in `run_parametric_sweep`
(`src/app.py` line 76):
`min_size + (max_size - min_size) * i / (num_points - 1)`. -/
def sizeTerm (min_size max_size : ℚ) (num_points : ℤ) (i : ℕ) : Except PyError ℚ :=
  match pyDiv ((max_size - min_size) * (i : ℚ)) ((num_points : ℚ) - 1) with
  | .error e => .error e
  | .ok q => .ok (min_size + q)

/-- A Python list comprehension over the given index list: terms are
evaluated left to right and the first raised error aborts the whole list. -/
def listComp {α : Type} (f : ℕ → Except PyError α) : List ℕ → Except PyError (List α)
  | [] => .ok []
  | i :: is =>
    match f i with
    | .error e => .error e
    | .ok x =>
      match listComp f is with
      | .error e => .error e
      | .ok xs => .ok (x :: xs)

/-- The `sizes` list of `run_parametric_sweep`:
`[min_size + (max_size - min_size) * i / (num_points - 1) for i in range(num_points)]`. -/
def sweepSizes (min_size max_size : ℚ) (num_points : ℤ) : Except PyError (List ℚ) :=
  listComp (sizeTerm min_size max_size num_points) (List.range num_points.toNat)

/-- `run_parametric_sweep` (`src/app.py` lines 74-83): build the sizes,
then run the model once per size, collecting the rows in order. -/
def run_parametric_sweep (min_size max_size : ℚ) (num_points : ℤ) :
    Except PyError (List CascadeResult) :=
  match sweepSizes min_size max_size num_points with
  | .error e => .error e
  | .ok sizes => .ok (sizes.map run_model)

/-- The i-th linearly spaced sample the comprehension produces when the
denominator is nonzero. -/
def sample (min_size max_size : ℚ) (num_points : ℤ) (i : ℕ) : ℚ :=
  min_size + (max_size - min_size) * (i : ℚ) / ((num_points : ℚ) - 1)

/-! ### Helper lemmas -/

lemma sizeTerm_ok (mn mx : ℚ) (n : ℤ) (i : ℕ) (h : (n : ℚ) - 1 ≠ 0) :
    sizeTerm mn mx n i = .ok (sample mn mx n i) := by
  simp [sizeTerm, pyDiv, h, sample]

lemma listComp_ok {α : Type} (f : ℕ → Except PyError α) (g : ℕ → α)
    (l : List ℕ) (h : ∀ i ∈ l, f i = .ok (g i)) :
    listComp f l = .ok (l.map g) := by
  induction l with
  | nil => rfl
  | cons i is ih =>
    have hi : f i = .ok (g i) := h i (List.mem_cons_self i is)
    have hrest : listComp f is = .ok (is.map g) :=
      ih fun j hj => h j (List.mem_cons_of_mem i hj)
    simp [listComp, hi, hrest]

lemma den_ne_zero {n : ℤ} (hn : 2 ≤ n) : (n : ℚ) - 1 ≠ 0 := by
  have : (2 : ℚ) ≤ (n : ℚ) := by exact_mod_cast hn
  linarith

lemma sweepSizes_ok (mn mx : ℚ) (n : ℤ) (hn : 2 ≤ n) :
    sweepSizes mn mx n = .ok ((List.range n.toNat).map (sample mn mx n)) := by
  exact listComp_ok _ _ _ fun i _ => sizeTerm_ok mn mx n i (den_ne_zero hn)

lemma run_parametric_sweep_ok (mn mx : ℚ) (n : ℤ) (hn : 2 ≤ n) :
    run_parametric_sweep mn mx n =
      .ok (((List.range n.toNat).map (sample mn mx n)).map run_model) := by
  simp [run_parametric_sweep, sweepSizes_ok mn mx n hn]

lemma sample_zero (mn mx : ℚ) (n : ℤ) : sample mn mx n 0 = mn := by
  simp [sample]

lemma toNat_cast_rat {n : ℤ} (hn : 2 ≤ n) : ((n.toNat : ℚ)) = (n : ℚ) := by
  have h0 : (0 : ℤ) ≤ n := by omega
  exact_mod_cast congrArg (fun k : ℤ => (k : ℚ)) (Int.toNat_of_nonneg h0)

lemma sample_last (mn mx : ℚ) (n : ℤ) (hn : 2 ≤ n) :
    sample mn mx n (n.toNat - 1) = mx := by
  have h1 : (1 : ℕ) ≤ n.toNat := by omega
  have hc : ((n.toNat - 1 : ℕ) : ℚ) = (n : ℚ) - 1 := by
    have := toNat_cast_rat hn
    push_cast [Nat.cast_sub h1]
    linarith
  have hd : (n : ℚ) - 1 ≠ 0 := den_ne_zero hn
  unfold sample
  rw [hc, mul_div_assoc, div_self hd, mul_one]
  ring

lemma sample_lt_sample (mn mx : ℚ) (n : ℤ) (hlt : mn < mx) (hn : 2 ≤ n)
    {i j : ℕ} (hij : i < j) : sample mn mx n i < sample mn mx n j := by
  have hd : (0 : ℚ) < (n : ℚ) - 1 := by
    have : (2 : ℚ) ≤ (n : ℚ) := by exact_mod_cast hn
    linarith
  have hdm : (0 : ℚ) < mx - mn := by linarith
  have hij' : (i : ℚ) < (j : ℚ) := by exact_mod_cast hij
  have key : sample mn mx n j - sample mn mx n i
      = (mx - mn) * ((j : ℚ) - (i : ℚ)) / ((n : ℚ) - 1) := by
    unfold sample; ring
  have : (0 : ℚ) < (mx - mn) * ((j : ℚ) - (i : ℚ)) / ((n : ℚ) - 1) := by
    apply div_pos (mul_pos hdm (by linarith)) hd
  linarith [key ▸ this]

/-- The table `run_parametric_sweep` returns when the step denominator is
nonzero: the model evaluated at each linearly spaced sample, in index order. -/
def sweepTable (min_size max_size : ℚ) (num_points : ℤ) : List CascadeResult :=
  ((List.range num_points.toNat).map (sample min_size max_size num_points)).map run_model

lemma sweepTable_length (mn mx : ℚ) (n : ℤ) :
    (sweepTable mn mx n).length = n.toNat := by
  simp [sweepTable]

lemma sweepTable_get (mn mx : ℚ) (n : ℤ) (i : ℕ)
    (hi : i < (sweepTable mn mx n).length) :
    (sweepTable mn mx n).get ⟨i, hi⟩ = run_model (sample mn mx n i) := by
  have hi' : i < n.toNat := by rwa [sweepTable_length] at hi
  simp [sweepTable, List.get_eq_getElem, List.getElem_map, List.getElem_range]

lemma run_model_windshield (x : ℚ) : (run_model x).windshield_size = x := rfl

lemma run_parametric_sweep_eq (mn mx : ℚ) (n : ℤ) (hn : 2 ≤ n) :
    run_parametric_sweep mn mx n = .ok (sweepTable mn mx n) :=
  run_parametric_sweep_ok mn mx n hn

lemma sweep_one_point (mn mx : ℚ) :
    run_parametric_sweep mn mx 1 = .error .zeroDivisionError := by
  have hr : List.range 1 = [0] := rfl
  norm_num [run_parametric_sweep, sweepSizes, listComp, sizeTerm, pyDiv, hr]

lemma sweep_nonpos (mn mx : ℚ) (n : ℤ) (hn : n ≤ 0) :
    run_parametric_sweep mn mx n = .ok [] := by
  simp [run_parametric_sweep, sweepSizes, Int.toNat_of_nonpos hn, listComp,
    List.range_zero]

/-! ### Claims -/

/-- C1: for every input, `run_model` returns exactly the composition of
the three pure component formulas, the returned `windshield_size` equals
the input, and every field is derived from the values of the same
record (never a stale value). -/
theorem run_model_is_composition (x : ℚ) :
    run_model x =
      { windshield_size := x
        heat_load := thermalCompute x
        system_weight := coolingCompute (thermalCompute x)
        fuel_burn := fuelCompute (coolingCompute (thermalCompute x)) x } ∧
    (run_model x).heat_load = thermalCompute (run_model x).windshield_size ∧
    (run_model x).system_weight = coolingCompute (run_model x).heat_load ∧
    (run_model x).fuel_burn =
      fuelCompute (run_model x).system_weight (run_model x).windshield_size := by
  refine ⟨rfl, rfl, rfl, rfl⟩

/-- C5: `ThermalComponent.compute` computes `heat_load = 2.5 * windshield_size + 10`,
is total over the (embedded) reals, and has no side effects: running the
thermal step writes only `thermal.heat_load` and leaves every other
variable of the store untouched. -/
theorem thermal_model_affine (s : ProbState) :
    (thermalStep s).thermal_heat_load = 2.5 * s.windshield_size + 10 ∧
    (thermalStep s).windshield_size = s.windshield_size ∧
    (thermalStep s).cooling_heat_load = s.cooling_heat_load ∧
    (thermalStep s).cooling_system_weight = s.cooling_system_weight ∧
    (thermalStep s).perf_system_weight = s.perf_system_weight ∧
    (thermalStep s).fuel_burn = s.fuel_burn := by
  refine ⟨rfl, rfl, rfl, rfl, rfl, rfl⟩

/-- C6: `CoolingSystemComponent.compute` computes
`system_weight = 0.5 * heat_load + 50`, is total and pure: running the
cooling step writes only `cooling.system_weight`. -/
theorem cooling_model_affine (s : ProbState) :
    (coolingStep s).cooling_system_weight = 0.5 * s.cooling_heat_load + 50 ∧
    (coolingStep s).windshield_size = s.windshield_size ∧
    (coolingStep s).thermal_heat_load = s.thermal_heat_load ∧
    (coolingStep s).cooling_heat_load = s.cooling_heat_load ∧
    (coolingStep s).perf_system_weight = s.perf_system_weight ∧
    (coolingStep s).fuel_burn = s.fuel_burn := by
  refine ⟨rfl, rfl, rfl, rfl, rfl, rfl⟩

/-- C7: `FuelComponent.compute` computes
`fuel_burn = 0.8 * system_weight + 1.2 * windshield_size ^ 1`
(coefficients e = 0.8, f = 1.2, exponent p = 1). -/
theorem fuel_model_formula (system_weight windshield_size : ℚ) :
    fuelCompute system_weight windshield_size =
      0.8 * system_weight + 1.2 * windshield_size ^ (1 : ℕ) := by
  simp [fuelCompute]

/-- C8: the concrete scenario `evaluate(3.0)`: heat_load = 17.5,
system_weight = 58.75, fuel_burn = 50.6. -/
theorem run_model_at_three :
    run_model 3 =
      { windshield_size := 3, heat_load := 17.5
        system_weight := 58.75, fuel_burn := 50.6 } := by
  norm_num [run_model, getResult, runOnce, perfStep, perfTransfer, coolingStep,
    coolingTransfer, thermalStep, set_val, initState, thermalCompute,
    coolingCompute, fuelCompute, CascadeResult.mk.injEq]

/-- C9: the cascade evaluation is deterministic and history-free: the
result record is a function of the input alone.  Whatever store a
problem starts from (any stale values a previous evaluation could have
left), setting the input and running the cascade yields exactly
`run_model x`, and repeated evaluations agree. -/
theorem run_model_deterministic (x : ℚ) (s : ProbState) :
    getResult (runOnce (set_val x s)) = run_model x ∧
    run_model x = run_model x := by
  constructor
  · rfl
  · rfl

/-- C10: every field of the result is strictly increasing in the input,
and the fuel_burn difference is exactly 2.2 times the input difference. -/
theorem run_model_strict_mono (x1 x2 : ℚ) (h : x1 < x2) :
    (run_model x1).heat_load < (run_model x2).heat_load ∧
    (run_model x1).system_weight < (run_model x2).system_weight ∧
    (run_model x1).fuel_burn < (run_model x2).fuel_burn ∧
    (run_model x2).fuel_burn - (run_model x1).fuel_burn = 2.2 * (x2 - x1) := by
  refine ⟨?_, ?_, ?_, ?_⟩ <;>
    simp only [run_model, getResult, runOnce, perfStep, perfTransfer, coolingStep,
      coolingTransfer, thermalStep, set_val, initState, thermalCompute,
      coolingCompute, fuelCompute] <;>
    norm_num <;> linarith

/-- C10 witness: the strict monotonicity at the concrete pair (0, 1). -/
theorem run_model_strict_mono_witness :
    (run_model 0).heat_load < (run_model 1).heat_load ∧
    (run_model 0).system_weight < (run_model 1).system_weight ∧
    (run_model 0).fuel_burn < (run_model 1).fuel_burn ∧
    (run_model 1).fuel_burn - (run_model 0).fuel_burn = 2.2 * (1 - 0) := by
  simpa using run_model_strict_mono 0 1 (by norm_num)

/-- C2: for min < max and num_points ≥ 2 the sweep returns a table of
exactly num_points rows whose windshield_size column is the linearly
spaced sequence `min + (max - min) * i / (num_points - 1)`, hence
non-decreasing, starting at min and ending at max. -/
theorem sweep_linspace (mn mx : ℚ) (n : ℤ) (hlt : mn < mx) (hn : 2 ≤ n) :
    run_parametric_sweep mn mx n = .ok (sweepTable mn mx n) ∧
    ((sweepTable mn mx n).length : ℤ) = n ∧
    (∀ i (hi : i < (sweepTable mn mx n).length),
      ((sweepTable mn mx n).get ⟨i, hi⟩).windshield_size
        = mn + (mx - mn) * (i : ℚ) / ((n : ℚ) - 1)) ∧
    (∀ i j (hi : i < (sweepTable mn mx n).length)
        (hj : j < (sweepTable mn mx n).length), i ≤ j →
      ((sweepTable mn mx n).get ⟨i, hi⟩).windshield_size ≤
        ((sweepTable mn mx n).get ⟨j, hj⟩).windshield_size) ∧
    (∀ h0 : 0 < (sweepTable mn mx n).length,
      ((sweepTable mn mx n).get ⟨0, h0⟩).windshield_size = mn) ∧
    (∀ hl : (sweepTable mn mx n).length - 1 < (sweepTable mn mx n).length,
      ((sweepTable mn mx n).get
        ⟨(sweepTable mn mx n).length - 1, hl⟩).windshield_size = mx) := by
  refine ⟨run_parametric_sweep_eq mn mx n hn, ?_, ?_, ?_, ?_, ?_⟩
  · rw [sweepTable_length]; omega
  · intro i hi
    rw [sweepTable_get, run_model_windshield]; rfl
  · intro i j hi hj hij
    rw [sweepTable_get, sweepTable_get, run_model_windshield, run_model_windshield]
    rcases lt_or_eq_of_le hij with h | h
    · exact le_of_lt (sample_lt_sample mn mx n hlt hn h)
    · rw [h]
  · intro h0
    rw [sweepTable_get, run_model_windshield, sample_zero]
  · intro hl
    rw [sweepTable_get, run_model_windshield, sweepTable_length,
      sample_last mn mx n hn]

/-- C2 witness: the sweep over [0, 1] with 3 points returns its table,
of length 3, with first sample 0. -/
theorem sweep_linspace_witness :
    run_parametric_sweep 0 1 3 = .ok (sweepTable 0 1 3) ∧
    ((sweepTable 0 1 3).length : ℤ) = 3 ∧
    ((sweepTable 0 1 3).get ⟨0, by norm_num [sweepTable_length]⟩).windshield_size = 0 := by
  obtain ⟨h1, h2, -, -, h5, -⟩ := sweep_linspace 0 1 3 (by norm_num) (by norm_num)
  exact ⟨h1, h2, h5 _⟩

/-- C3 counterexample: with max ≤ min (min = 2, max = 1, 5 points) the
sweep returns a normal table instead of raising InvalidRangeError, and
with num_points = 1 it raises ZeroDivisionError, not InvalidRangeError. -/
theorem sweep_invalid_range_counterexample :
    run_parametric_sweep 2 1 5 = .ok (sweepTable 2 1 5) ∧
    run_parametric_sweep 0 1 1 = .error .zeroDivisionError := by
  exact ⟨run_parametric_sweep_eq 2 1 5 (by norm_num), sweep_one_point 0 1⟩

/-- C3 amended: the sweep performs no range validation and never raises
InvalidRangeError.  For any min, max and num_points ≥ 2 — including
max ≤ min — it returns a normal table; for num_points = 1 it raises
ZeroDivisionError from the step computation; for num_points ≤ 0 it
returns an empty table. -/
theorem sweep_no_validation (mn mx : ℚ) (n : ℤ) :
    (2 ≤ n → run_parametric_sweep mn mx n = .ok (sweepTable mn mx n)) ∧
    (n = 1 → run_parametric_sweep mn mx n = .error .zeroDivisionError) ∧
    (n ≤ 0 → run_parametric_sweep mn mx n = .ok []) ∧
    run_parametric_sweep mn mx n ≠ .error .invalidRangeError := by
  refine ⟨run_parametric_sweep_eq mn mx n, fun h => h ▸ sweep_one_point mn mx,
    sweep_nonpos mn mx n, ?_⟩
  rcases le_or_lt n 0 with h0 | h0
  · rw [sweep_nonpos mn mx n h0]; simp
  · by_cases h1 : n = 1
    · rw [h1, sweep_one_point mn mx]; simp
    · rw [run_parametric_sweep_eq mn mx n (by omega)]; simp

/-- C3 witness: concrete instances of the three validation-free
behaviours: max < min with 2 points returns a table, num_points = 1
raises ZeroDivisionError, num_points = 0 returns the empty table. -/
theorem sweep_no_validation_witness :
    run_parametric_sweep 5 2 2 = .ok (sweepTable 5 2 2) ∧
    run_parametric_sweep 3 3 1 = .error .zeroDivisionError ∧
    run_parametric_sweep 1 2 0 = .ok [] :=
  ⟨(sweep_no_validation 5 2 2).1 (by norm_num),
   (sweep_no_validation 3 3 1).2.1 rfl,
   (sweep_no_validation 1 2 0).2.2.1 (by norm_num)⟩

/-- C4: for min < max and n ≥ 2 every row of the sweep table equals the
single-point evaluation `run_model` at the corresponding linearly spaced
sample, and the samples are in strictly ascending order. -/
theorem sweep_rows_consistent (mn mx : ℚ) (n : ℤ) (hlt : mn < mx) (hn : 2 ≤ n) :
    run_parametric_sweep mn mx n = .ok (sweepTable mn mx n) ∧
    (∀ i (hi : i < (sweepTable mn mx n).length),
      (sweepTable mn mx n).get ⟨i, hi⟩ = run_model (sample mn mx n i)) ∧
    (∀ i j, i < j → j < (sweepTable mn mx n).length →
      sample mn mx n i < sample mn mx n j) := by
  exact ⟨run_parametric_sweep_eq mn mx n hn,
    fun i hi => sweepTable_get mn mx n i hi,
    fun i j hij _ => sample_lt_sample mn mx n hlt hn hij⟩

/-- C4 witness: for the sweep over [0, 1] with 2 points, row 0 is the
single-point evaluation at sample 0 and the two samples ascend. -/
theorem sweep_rows_consistent_witness :
    run_parametric_sweep 0 1 2 = .ok (sweepTable 0 1 2) ∧
    (sweepTable 0 1 2).get ⟨0, by norm_num [sweepTable_length]⟩
      = run_model (sample 0 1 2 0) ∧
    sample 0 1 2 0 < sample 0 1 2 1 := by
  obtain ⟨h1, h2, h3⟩ := sweep_rows_consistent 0 1 2 (by norm_num) (by norm_num)
  exact ⟨h1, h2 0 (by norm_num [sweepTable_length]),
    h3 0 1 (by norm_num) (by norm_num [sweepTable_length])⟩
